import Mathlib

/-!
Verification of the zeuschat-server event handlers.

The two implementation variants (`src/server.js`, the richer one, and
`src/unnamed/part_000`, the earlier near-duplicate) are shallowly embedded:

* the Postgres tables touched by the handlers (`users`, `otp_requests`,
  `invites`, `friendships`, `messages`) become lists of rows inside `Db`;
* each SQL statement becomes a pure function on those lists.  An
  `ON CONFLICT (col) DO UPDATE` upsert is modelled as update-if-present keyed
  by the named column (the named conflict target witnesses a unique key on
  that column).  A bare `INSERT ... ON CONFLICT DO NOTHING` (used for
  `invites` and `friendships` in server.js) is modelled as skip-if-present
  keyed by the inserted ordered pair of pins — the minimal unique constraint
  under which the statement's deduplication does anything.  The plain
  `INSERT`s of part_000 append unconditionally (no constraint is named
  anywhere in that variant's SQL);
* the in-memory `activeUsers` JavaScript `Map` becomes an insertion-ordered
  association list with `Map.set` / `Map.get` / first-match-then-break
  deletion semantics;
* each socket handler becomes a function from the shared state and the
  action payload to the new state, the list of events emitted to the calling
  socket, and the list of events pushed to other sockets;
* wall-clock time (`NOW()`, `Date.now()`) is an explicit `now : Nat`
  parameter in milliseconds, and the randomly generated values (the 6-digit
  OTP, the fresh Zeus-PIN) are explicit parameters.
-/

abbrev Pin := String
abbrev SocketId := String
abbrev Email := String

/-- A row of the `users` table (`zeus_pin`, `email`, `name`, `about`,
`verified_at`); columns not yet written are `none`. -/
structure User where
  zeus_pin : Pin
  email : Email
  name : Option String
  about : Option String
  verified_at : Option Nat
  deriving DecidableEq, Repr

/-- A row of the `otp_requests` table. -/
structure OtpRow where
  email : Email
  otp : String
  expires_at : Nat
  deriving DecidableEq, Repr

/-- A row of the `invites` table. -/
structure InviteRow where
  from_pin : Pin
  to_pin : Pin
  status : String
  deriving DecidableEq, Repr

/-- A row of the `friendships` table. -/
structure FriendshipRow where
  user1_pin : Pin
  user2_pin : Pin
  deriving DecidableEq, Repr

/-- A row of the `messages` table; `id` is the serial primary key. -/
structure MessageRow where
  id : Nat
  from_pin : Pin
  to_pin : Pin
  content : String
  ttl : Nat
  created_at : Nat
  deriving DecidableEq, Repr

/-- The durable store: one list of rows per table, plus the next value of the
`messages` serial id sequence. -/
structure Db where
  users : List User
  otp_requests : List OtpRow
  invites : List InviteRow
  friendships : List FriendshipRow
  messages : List MessageRow
  nextMessageId : Nat
  deriving DecidableEq, Repr

/-- `activeUsers`: the in-memory `Map` from Zeus-PIN to socket id, kept in
JavaScript `Map` insertion order. -/
abbrev Presence := List (Pin × SocketId)

/-- `activeUsers.get(k)`. -/
def mapGet (m : Presence) (k : Pin) : Option SocketId :=
  (m.find? (fun en => en.1 == k)).map Prod.snd

/-- `activeUsers.set(k, v)`: update in place when the key is present
(JavaScript `Map.set` keeps the original insertion position), append
otherwise. -/
def mapSet (m : Presence) (k : Pin) (v : SocketId) : Presence :=
  if m.any (fun en => en.1 == k) then
    m.map (fun en => if en.1 == k then (k, v) else en)
  else m ++ [(k, v)]

/-- The `disconnect` loop: walk the entries in insertion order, delete the
first one whose value is the terminating socket id, then `break`. -/
def removeFirstByValue : Presence → SocketId → Presence
  | [], _ => []
  | en :: rest, sid => if en.2 == sid then rest else en :: removeFirstByValue rest sid

/-- The whole mutable server state: the database plus the presence map. -/
structure ServerState where
  db : Db
  activeUsers : Presence
  deriving DecidableEq, Repr

/-- The socket events the handlers emit. -/
inductive Event where
  | otpSent (email : Email)
  | otpError (msg : String)
  | otpVerified (user : Option User)
  | errorEv (msg : String)
  | registered (user : Option User)
  | inviteSent (toPin : Pin)
  | inviteReceived (fromPin toPin : Pin)
  | friendAdded (peer : Pin)
  | inviteAccepted (fromPin toPin : Pin)
  | messageReceived (fromPin : Pin) (content : String) (ttl : Nat) (messageId : Option Nat)
  | messageSent (toPin : Pin) (content : String)
  deriving DecidableEq, Repr

/-- What one handler invocation produces: the new shared state, the events
emitted on the calling socket (`socket.emit`), and the events pushed to other
sockets (`io.to(sid).emit`). -/
structure HandlerResult where
  state : ServerState
  senderEvents : List Event
  deliveries : List (SocketId × Event)
  deriving DecidableEq, Repr

/-- `INSERT INTO otp_requests ... ON CONFLICT (email) DO UPDATE SET otp, expires_at`. -/
def upsertOtp (rows : List OtpRow) (e c : String) (exp : Nat) : List OtpRow :=
  if rows.any (fun r => r.email == e) then
    rows.map (fun r => if r.email == e then { r with otp := c, expires_at := exp } else r)
  else rows ++ [⟨e, c, exp⟩]

/-- server.js `requestOTP` handler: ten-minute expiry, upsert keyed by email,
`otpSent` to the caller.  The generated 6-digit code is the parameter `c`. -/
def requestOTP (st : ServerState) (e c : String) (now : Nat) : HandlerResult :=
  { state := { st with db := { st.db with otp_requests := upsertOtp st.db.otp_requests e c (now + 600000) } }
    senderEvents := [Event.otpSent e]
    deliveries := [] }

/-- `INSERT INTO users (zeus_pin, email, verified_at) ... ON CONFLICT (email)
DO UPDATE SET zeus_pin, verified_at` from the `verifyOTP` handler. -/
def upsertUserByEmail (users : List User) (p : Pin) (e : Email) (now : Nat) : List User :=
  if users.any (fun u => u.email == e) then
    users.map (fun u => if u.email == e then { u with zeus_pin := p, verified_at := some now } else u)
  else users ++ [⟨p, e, none, none, some now⟩]

/-- server.js `verifyOTP` handler: select the OTP row matching email, code and
`expires_at > NOW()`; if none, emit the single undifferentiated error; else
upsert the user (fresh pin `newPin`), delete the consumed OTP rows for the
email, and emit `otpVerified`. -/
def verifyOTP (st : ServerState) (e c : String) (now : Nat) (newPin : Pin) : HandlerResult :=
  let rows := st.db.otp_requests.filter
    (fun r => r.email == e && r.otp == c && decide (now < r.expires_at))
  if rows.isEmpty then
    { state := st, senderEvents := [Event.otpError "Invalid or expired OTP"], deliveries := [] }
  else
    let users2 := upsertUserByEmail st.db.users newPin e now
    let otps2 := st.db.otp_requests.filter (fun r => r.email != e)
    { state := { st with db := { st.db with users := users2, otp_requests := otps2 } }
      senderEvents := [Event.otpVerified (users2.find? (fun u => u.email == e))]
      deliveries := [] }

/-- `UPDATE users SET name = $2, about = $3 WHERE zeus_pin = $1`. -/
def updateUserProfile (users : List User) (p : Pin) (n a : String) : List User :=
  users.map (fun u => if u.zeus_pin == p then { u with name := some n, about := some a } else u)

/-- server.js `register` handler: run the profile UPDATE (which matches zero
rows when the pin is unknown and raises no error), then unconditionally bind
the pin to the calling socket and emit `registered` with `result.rows[0]`
(which is `undefined`, i.e. `none`, when the UPDATE matched nothing). -/
def register (st : ServerState) (sid : SocketId) (zeusPin n a : String) : HandlerResult :=
  let users2 := updateUserProfile st.db.users zeusPin n a
  let returned := users2.filter (fun u => u.zeus_pin == zeusPin)
  { state := { db := { st.db with users := users2 }
               activeUsers := mapSet st.activeUsers zeusPin sid }
    senderEvents := [Event.registered returned.head?]
    deliveries := [] }

/-- part_000 `register` handler: `INSERT INTO users (zeus_pin, name, email)
ON CONFLICT (zeus_pin) DO UPDATE SET name, email` — an upsert that creates the
identity when absent — then bind and emit `registered`. -/
def register_v0 (st : ServerState) (sid : SocketId) (zeusPin n e : String) : HandlerResult :=
  let users2 :=
    if st.db.users.any (fun u => u.zeus_pin == zeusPin) then
      st.db.users.map (fun u => if u.zeus_pin == zeusPin then { u with name := some n, email := e } else u)
    else st.db.users ++ [⟨zeusPin, e, some n, none, none⟩]
  { state := { db := { st.db with users := users2 }
               activeUsers := mapSet st.activeUsers zeusPin sid }
    senderEvents := [Event.registered (users2.find? (fun u => u.zeus_pin == zeusPin))]
    deliveries := [] }

/-- server.js `INSERT INTO invites ... ON CONFLICT DO NOTHING`, modelled as
skip-if-present keyed by the ordered pair `(from_pin, to_pin)`. -/
def insertInviteIgnoreDup (invs : List InviteRow) (f t : Pin) : List InviteRow :=
  if invs.any (fun i => i.from_pin == f && i.to_pin == t) then invs
  else invs ++ [⟨f, t, "pending"⟩]

/-- server.js `addContact` handler: fail with an error event when the
recipient pin has no user row; otherwise insert the pending invite
(duplicates ignored), push `inviteReceived` to the recipient when online, and
emit `inviteSent`. -/
def addContact (st : ServerState) (fromPin toPin : Pin) : HandlerResult :=
  if st.db.users.any (fun u => u.zeus_pin == toPin) then
    let invs2 := insertInviteIgnoreDup st.db.invites fromPin toPin
    let dv := match mapGet st.activeUsers toPin with
      | some sid => [(sid, Event.inviteReceived fromPin toPin)]
      | none => []
    { state := { st with db := { st.db with invites := invs2 } }
      senderEvents := [Event.inviteSent toPin]
      deliveries := dv }
  else
    { state := st, senderEvents := [Event.errorEv "Recipient Zeus-PIN not found"], deliveries := [] }

/-- part_000 `addContact` handler: same, but the invite `INSERT` has no
`ON CONFLICT` clause and always appends a row. -/
def addContact_v0 (st : ServerState) (fromPin toPin : Pin) : HandlerResult :=
  if st.db.users.any (fun u => u.zeus_pin == toPin) then
    let invs2 := st.db.invites ++ [⟨fromPin, toPin, "pending"⟩]
    let dv := match mapGet st.activeUsers toPin with
      | some sid => [(sid, Event.inviteReceived fromPin toPin)]
      | none => []
    { state := { st with db := { st.db with invites := invs2 } }
      senderEvents := [Event.inviteSent toPin]
      deliveries := dv }
  else
    { state := st, senderEvents := [Event.errorEv "Recipient Zeus-PIN not found"], deliveries := [] }

/-- `UPDATE invites SET status = accepted WHERE from_pin = $2 AND to_pin = $3`. -/
def setInviteAccepted (invs : List InviteRow) (f t : Pin) : List InviteRow :=
  invs.map (fun i => if i.from_pin == f && i.to_pin == t then { i with status := "accepted" } else i)

/-- server.js `INSERT INTO friendships ... ON CONFLICT DO NOTHING`, modelled as
skip-if-present keyed by the ordered pair `(user1_pin, user2_pin)` exactly as
inserted — nothing in the source normalises the pair to an unordered form. -/
def insertFriendshipIgnoreDup (fs : List FriendshipRow) (a b : Pin) : List FriendshipRow :=
  if fs.any (fun r => r.user1_pin == a && r.user2_pin == b) then fs
  else fs ++ [⟨a, b⟩]

/-- server.js `acceptInvite` handler: mark the invite row(s) for the ordered
pair accepted (no precondition that one exists), insert the friendship row
for the ordered pair (duplicates of that exact ordering ignored), notify both
pins' sockets if online, and emit `inviteAccepted`. -/
def acceptInvite (st : ServerState) (fromPin toPin : Pin) : HandlerResult :=
  let invs2 := setInviteAccepted st.db.invites fromPin toPin
  let fs2 := insertFriendshipIgnoreDup st.db.friendships fromPin toPin
  let d1 := match mapGet st.activeUsers fromPin with
    | some sid => [(sid, Event.friendAdded toPin)]
    | none => []
  let d2 := match mapGet st.activeUsers toPin with
    | some sid => [(sid, Event.friendAdded fromPin)]
    | none => []
  { state := { st with db := { st.db with invites := invs2, friendships := fs2 } }
    senderEvents := [Event.inviteAccepted fromPin toPin]
    deliveries := d1 ++ d2 }

/-- part_000 `acceptInvite` handler: same, but the friendship `INSERT` has no
`ON CONFLICT` clause and always appends a row. -/
def acceptInvite_v0 (st : ServerState) (fromPin toPin : Pin) : HandlerResult :=
  let invs2 := setInviteAccepted st.db.invites fromPin toPin
  let fs2 := st.db.friendships ++ [⟨fromPin, toPin⟩]
  let d1 := match mapGet st.activeUsers fromPin with
    | some sid => [(sid, Event.friendAdded toPin)]
    | none => []
  let d2 := match mapGet st.activeUsers toPin with
    | some sid => [(sid, Event.friendAdded fromPin)]
    | none => []
  { state := { st with db := { st.db with invites := invs2, friendships := fs2 } }
    senderEvents := [Event.inviteAccepted fromPin toPin]
    deliveries := d1 ++ d2 }

/-- The friendship query of `sendMessage`: `SELECT * FROM friendships WHERE
(user1_pin = $1 AND user2_pin = $2) OR (user1_pin = $2 AND user2_pin = $1)`
is non-empty.  This is the spec's `AreRelated`. -/
def areRelated (fs : List FriendshipRow) (a b : Pin) : Bool :=
  fs.any (fun r => (r.user1_pin == a && r.user2_pin == b) || (r.user1_pin == b && r.user2_pin == a))

/-- server.js `sendMessage` handler: fail closed when no friendship row
matches either ordering; otherwise insert exactly one message row (`RETURNING
*` yields its serial id), push `messageReceived` (with the id) to the
recipient when online, and emit `messageSent`. -/
def sendMessage (st : ServerState) (fromPin toPin content : String) (ttl now : Nat) : HandlerResult :=
  if areRelated st.db.friendships fromPin toPin then
    let mid := st.db.nextMessageId
    let dv := match mapGet st.activeUsers toPin with
      | some sid => [(sid, Event.messageReceived fromPin content ttl (some mid))]
      | none => []
    { state := { st with db := { st.db with
        messages := st.db.messages ++ [⟨mid, fromPin, toPin, content, ttl, now⟩]
        nextMessageId := mid + 1 } }
      senderEvents := [Event.messageSent toPin content]
      deliveries := dv }
  else
    { state := st
      senderEvents := [Event.errorEv "You must be friends to send messages"]
      deliveries := [] }

/-- part_000 `sendMessage` handler: identical except that the insert has no
`RETURNING`, so the delivery event carries no message id. -/
def sendMessage_v0 (st : ServerState) (fromPin toPin content : String) (ttl now : Nat) : HandlerResult :=
  if areRelated st.db.friendships fromPin toPin then
    let mid := st.db.nextMessageId
    let dv := match mapGet st.activeUsers toPin with
      | some sid => [(sid, Event.messageReceived fromPin content ttl none)]
      | none => []
    { state := { st with db := { st.db with
        messages := st.db.messages ++ [⟨mid, fromPin, toPin, content, ttl, now⟩]
        nextMessageId := mid + 1 } }
      senderEvents := [Event.messageSent toPin content]
      deliveries := dv }
  else
    { state := st
      senderEvents := [Event.errorEv "You must be friends to send messages"]
      deliveries := [] }

/-- The `disconnect` handler (identical in both variants): remove the first
presence entry referencing the terminating socket, then stop. -/
def disconnectHandler (st : ServerState) (sid : SocketId) : ServerState :=
  { st with activeUsers := removeFirstByValue st.activeUsers sid }

/-- Claim C8: the friendship authorization check of `sendMessage` is
symmetric — for every store and every pair of pins, `areRelated` gives the
same answer for both orderings of the pair. -/
theorem areRelated_symm (fs : List FriendshipRow) (a b : Pin) :
    areRelated fs a b = areRelated fs b a := by
  have h : (fun r : FriendshipRow => (r.user1_pin == a && r.user2_pin == b) || (r.user1_pin == b && r.user2_pin == a))
      = (fun r : FriendshipRow => (r.user1_pin == b && r.user2_pin == a) || (r.user1_pin == a && r.user2_pin == b)) :=
    funext (fun r => Bool.or_comm _ _)
  unfold areRelated
  rw [h]

/-- An empty database. -/
def emptyDb : Db :=
  { users := [], otp_requests := [], invites := [], friendships := [], messages := [], nextMessageId := 1 }

/-- A bare user row with only pin and email set. -/
def mkUser (p : Pin) (e : Email) : User :=
  { zeus_pin := p, email := e, name := none, about := none, verified_at := none }

/-- Two registered identities, no invites, no friendships, nobody online. -/
def stTwoUsers : ServerState :=
  { db := { emptyDb with users := [mkUser "ZT-1111-2222" "a@x.com", mkUser "ZT-3333-4444" "b@x.com"] }
    activeUsers := [] }

/-- Same two identities, already friends (one friendship row), nobody online. -/
def stFriends : ServerState :=
  { db := { emptyDb with
      users := [mkUser "ZT-1111-2222" "a@x.com", mkUser "ZT-3333-4444" "b@x.com"]
      friendships := [⟨"ZT-1111-2222", "ZT-3333-4444"⟩] }
    activeUsers := [] }

/-- Claim C1: when no friendship row exists for the pair in either ordering,
both variants of `sendMessage` emit only the failure event to the sender,
leave the whole state (hence the message table) unchanged, and deliver
nothing to anyone. -/
theorem sendMessage_notRelated (st : ServerState) (f t c : String) (ttl now : Nat)
    (h : ∀ r ∈ st.db.friendships,
      ¬((r.user1_pin = f ∧ r.user2_pin = t) ∨ (r.user1_pin = t ∧ r.user2_pin = f))) :
    ((sendMessage st f t c ttl now).state = st
      ∧ (sendMessage st f t c ttl now).senderEvents = [Event.errorEv "You must be friends to send messages"]
      ∧ (sendMessage st f t c ttl now).deliveries = [])
    ∧ ((sendMessage_v0 st f t c ttl now).state = st
      ∧ (sendMessage_v0 st f t c ttl now).senderEvents = [Event.errorEv "You must be friends to send messages"]
      ∧ (sendMessage_v0 st f t c ttl now).deliveries = []) := by
  have hb : areRelated st.db.friendships f t = false := by
    rw [areRelated, List.any_eq_false]
    intro r hr
    simpa using h r hr
  simp [sendMessage, sendMessage_v0, hb]

/-- Witness for C1 at a concrete state: two identities with no relationship. -/
theorem sendMessage_notRelated_witness :
    ((sendMessage stTwoUsers "ZT-1111-2222" "ZT-5555-6666" "hi" 60 0).state = stTwoUsers
      ∧ (sendMessage stTwoUsers "ZT-1111-2222" "ZT-5555-6666" "hi" 60 0).senderEvents
          = [Event.errorEv "You must be friends to send messages"]
      ∧ (sendMessage stTwoUsers "ZT-1111-2222" "ZT-5555-6666" "hi" 60 0).deliveries = [])
    ∧ ((sendMessage_v0 stTwoUsers "ZT-1111-2222" "ZT-5555-6666" "hi" 60 0).state = stTwoUsers
      ∧ (sendMessage_v0 stTwoUsers "ZT-1111-2222" "ZT-5555-6666" "hi" 60 0).senderEvents
          = [Event.errorEv "You must be friends to send messages"]
      ∧ (sendMessage_v0 stTwoUsers "ZT-1111-2222" "ZT-5555-6666" "hi" 60 0).deliveries = []) :=
  sendMessage_notRelated stTwoUsers "ZT-1111-2222" "ZT-5555-6666" "hi" 60 0 (by decide)

/-- Claim C7: whenever a friendship row matches the pair, both variants of
`sendMessage` append exactly one new message row — independently of the
recipient's presence — and the live push to the recipient happens only in
addition to that row, and only when a presence binding exists. -/
theorem sendMessage_persists_one (st : ServerState) (f t c : String) (ttl now : Nat)
    (h : areRelated st.db.friendships f t = true) :
    ((sendMessage st f t c ttl now).state.db.messages
        = st.db.messages ++ [⟨st.db.nextMessageId, f, t, c, ttl, now⟩]
      ∧ (sendMessage st f t c ttl now).state.db.messages.length = st.db.messages.length + 1
      ∧ (mapGet st.activeUsers t = none → (sendMessage st f t c ttl now).deliveries = [])
      ∧ (∀ sid, mapGet st.activeUsers t = some sid →
          (sendMessage st f t c ttl now).deliveries
            = [(sid, Event.messageReceived f c ttl (some st.db.nextMessageId))]))
    ∧ ((sendMessage_v0 st f t c ttl now).state.db.messages
        = st.db.messages ++ [⟨st.db.nextMessageId, f, t, c, ttl, now⟩]
      ∧ (sendMessage_v0 st f t c ttl now).state.db.messages.length = st.db.messages.length + 1
      ∧ (mapGet st.activeUsers t = none → (sendMessage_v0 st f t c ttl now).deliveries = [])
      ∧ (∀ sid, mapGet st.activeUsers t = some sid →
          (sendMessage_v0 st f t c ttl now).deliveries
            = [(sid, Event.messageReceived f c ttl none)])) := by
  constructor
  · refine ⟨by simp [sendMessage, h], by simp [sendMessage, h], ?_, ?_⟩
    · intro hnone
      simp [sendMessage, h, hnone]
    · intro sid hsid
      simp [sendMessage, h, hsid]
  · refine ⟨by simp [sendMessage_v0, h], by simp [sendMessage_v0, h], ?_, ?_⟩
    · intro hnone
      simp [sendMessage_v0, h, hnone]
    · intro sid hsid
      simp [sendMessage_v0, h, hsid]

/-- Witness for C7 at a concrete state: the two identities are friends and
the recipient is offline, yet exactly one message row is appended. -/
theorem sendMessage_persists_one_witness :
    (sendMessage stFriends "ZT-1111-2222" "ZT-3333-4444" "hi" 60 5).state.db.messages
        = [⟨1, "ZT-1111-2222", "ZT-3333-4444", "hi", 60, 5⟩]
      ∧ (sendMessage stFriends "ZT-1111-2222" "ZT-3333-4444" "hi" 60 5).deliveries = [] := by
  have h := sendMessage_persists_one stFriends "ZT-1111-2222" "ZT-3333-4444" "hi" 60 5 (by decide)
  exact ⟨by simpa [stFriends, emptyDb] using h.1.1, h.1.2.2.1 (by decide)⟩

/-- Recognizer for the success event of `verifyOTP`. -/
def isOtpVerified : Event → Bool
  | Event.otpVerified _ => true
  | _ => false

/-- The OTP lookup of `verifyOTP` is empty exactly when no stored row matches
email, code and expiry. -/
lemma otpFilter_eq_nil_iff (st : ServerState) (e c : String) (now : Nat) :
    (st.db.otp_requests.filter
        (fun r => r.email == e && r.otp == c && decide (now < r.expires_at))) = []
    ↔ ¬ ∃ r ∈ st.db.otp_requests, r.email = e ∧ r.otp = c ∧ now < r.expires_at := by
  constructor
  · rintro hnil ⟨r, hr, h1, h2, h3⟩
    have hm : r ∈ st.db.otp_requests.filter
        (fun r => r.email == e && r.otp == c && decide (now < r.expires_at)) :=
      List.mem_filter.2 ⟨hr, by simp [h1, h2, h3]⟩
    rw [hnil] at hm
    exact absurd hm (List.not_mem_nil r)
  · intro hne
    rcases hfil : st.db.otp_requests.filter
        (fun r => r.email == e && r.otp == c && decide (now < r.expires_at)) with _ | ⟨r, rs⟩
    · exact hfil
    · exfalso
      apply hne
      have hm : r ∈ st.db.otp_requests.filter
          (fun r => r.email == e && r.otp == c && decide (now < r.expires_at)) := by
        rw [hfil]; exact List.mem_cons_self r rs
      have hmem := List.mem_filter.1 hm
      have hp := hmem.2
      simp only [Bool.and_eq_true, beq_iff_eq, decide_eq_true_eq] at hp
      exact ⟨r, hmem.1, hp.1.1, hp.1.2, hp.2⟩

/-- When no matching OTP row exists, `verifyOTP` leaves the state unchanged
and emits only the undifferentiated error. -/
lemma verifyOTP_eq_fail (st : ServerState) (e c : String) (now : Nat) (p : Pin)
    (h : ¬ ∃ r ∈ st.db.otp_requests, r.email = e ∧ r.otp = c ∧ now < r.expires_at) :
    verifyOTP st e c now p =
      { state := st, senderEvents := [Event.otpError "Invalid or expired OTP"], deliveries := [] } := by
  have hnil := (otpFilter_eq_nil_iff st e c now).2 h
  simp only [verifyOTP, hnil]
  rfl

/-- When a matching OTP row exists, `verifyOTP` upserts the user, deletes all
OTP rows for the email, and emits `otpVerified`. -/
lemma verifyOTP_eq_succ (st : ServerState) (e c : String) (now : Nat) (p : Pin)
    (h : ∃ r ∈ st.db.otp_requests, r.email = e ∧ r.otp = c ∧ now < r.expires_at) :
    verifyOTP st e c now p =
      { state := { st with db := { st.db with
            users := upsertUserByEmail st.db.users p e now
            otp_requests := st.db.otp_requests.filter (fun r => r.email != e) } }
        senderEvents := [Event.otpVerified
          ((upsertUserByEmail st.db.users p e now).find? (fun u => u.email == e))]
        deliveries := [] } := by
  rcases hfil : st.db.otp_requests.filter
      (fun r => r.email == e && r.otp == c && decide (now < r.expires_at)) with _ | ⟨r, rs⟩
  · exact absurd ((otpFilter_eq_nil_iff st e c now).1 hfil) (not_not.2 h)
  · simp only [verifyOTP, hfil, List.isEmpty_cons]
    rfl

/-- Claim C5: `verifyOTP` succeeds exactly when an `otp_requests` row for the
address exists whose code matches exactly and whose expiry is strictly in the
future; in every other case it emits the single undifferentiated
"Invalid or expired OTP" failure. -/
theorem verifyOTP_success_iff (st : ServerState) (e c : String) (now : Nat) (p : Pin) :
    ((verifyOTP st e c now p).senderEvents.any isOtpVerified = true
      ↔ ∃ r ∈ st.db.otp_requests, r.email = e ∧ r.otp = c ∧ now < r.expires_at)
    ∧ ((¬ ∃ r ∈ st.db.otp_requests, r.email = e ∧ r.otp = c ∧ now < r.expires_at)
      ↔ (verifyOTP st e c now p).senderEvents = [Event.otpError "Invalid or expired OTP"]) := by
  by_cases hex : ∃ r ∈ st.db.otp_requests, r.email = e ∧ r.otp = c ∧ now < r.expires_at
  · rw [verifyOTP_eq_succ st e c now p hex]
    constructor
    · simpa [isOtpVerified] using hex
    · simpa using hex
  · rw [verifyOTP_eq_fail st e c now p hex]
    constructor
    · simpa [isOtpVerified] using hex
    · simpa using hex

/-- After `requestOTP`, the OTP table holds a row for the email with the new
code and the ten-minute expiry. -/
lemma upsertOtp_mem (rows : List OtpRow) (e c : String) (exp : Nat) :
    ∃ r ∈ upsertOtp rows e c exp, r.email = e ∧ r.otp = c ∧ r.expires_at = exp := by
  unfold upsertOtp
  by_cases hc : rows.any (fun r => r.email == e) = true
  · obtain ⟨r, hr, hre⟩ := List.any_eq_true.1 hc
    rw [if_pos hc]
    refine ⟨{ r with otp := c, expires_at := exp }, ?_, ?_⟩
    · have : (if r.email == e then { r with otp := c, expires_at := exp } else r)
          = { r with otp := c, expires_at := exp } := by rw [if_pos hre]
      exact this ▸ List.mem_map_of_mem _ hr
    · refine ⟨?_, rfl, rfl⟩
      simpa using hre
  · rw [if_neg hc]
    exact ⟨⟨e, c, exp⟩, by simp, rfl, rfl, rfl⟩

/-- Claim C6: a code issued by `requestOTP` is single-use — verifying it
within its TTL succeeds and deletes every OTP row for the address, and a
second `verifyOTP` with the same arguments fails with the undifferentiated
error, at any later (or equal) time. -/
theorem verifyOTP_single_use (st : ServerState) (e c : String) (t0 t1 t2 : Nat) (p1 p2 : Pin)
    (h : t1 < t0 + 600000) :
    ((verifyOTP (requestOTP st e c t0).state e c t1 p1).senderEvents.any isOtpVerified = true)
    ∧ ((verifyOTP (requestOTP st e c t0).state e c t1 p1).state.db.otp_requests.all
        (fun r => r.email != e) = true)
    ∧ ((verifyOTP (verifyOTP (requestOTP st e c t0).state e c t1 p1).state e c t2 p2).senderEvents
        = [Event.otpError "Invalid or expired OTP"]) := by
  have hex : ∃ r ∈ (requestOTP st e c t0).state.db.otp_requests,
      r.email = e ∧ r.otp = c ∧ t1 < r.expires_at := by
    obtain ⟨r, hr, h1, h2, h3⟩ := upsertOtp_mem st.db.otp_requests e c (t0 + 600000)
    exact ⟨r, hr, h1, h2, h3 ▸ h⟩
  rw [verifyOTP_eq_succ _ e c t1 p1 hex]
  refine ⟨by simp [isOtpVerified], ?_, ?_⟩
  · simp only [List.all_eq_true]
    intro r hr
    exact (List.mem_filter.1 hr).2
  · rw [verifyOTP_eq_fail]
    rintro ⟨r, hr, h1, _, _⟩
    have hne := (List.mem_filter.1 hr).2
    rw [h1] at hne
    simp at hne

/-- Witness for C6: a concrete issue-verify-verify run. -/
theorem verifyOTP_single_use_witness :
    ((verifyOTP (requestOTP { db := emptyDb, activeUsers := [] } "a@x.com" "482913" 0).state
        "a@x.com" "482913" 1000 "ZT-7777-8888").senderEvents.any isOtpVerified = true)
    ∧ ((verifyOTP (requestOTP { db := emptyDb, activeUsers := [] } "a@x.com" "482913" 0).state
        "a@x.com" "482913" 1000 "ZT-7777-8888").state.db.otp_requests.all
        (fun r => r.email != "a@x.com") = true)
    ∧ ((verifyOTP (verifyOTP (requestOTP { db := emptyDb, activeUsers := [] } "a@x.com" "482913" 0).state
        "a@x.com" "482913" 1000 "ZT-7777-8888").state "a@x.com" "482913" 2000 "ZT-9999-0000").senderEvents
        = [Event.otpError "Invalid or expired OTP"]) :=
  verifyOTP_single_use { db := emptyDb, activeUsers := [] } "a@x.com" "482913" 0 1000 2000
    "ZT-7777-8888" "ZT-9999-0000" (by decide)

/-- A list is unchanged by mapping a function that fixes each element. -/
lemma map_eq_self_of {α : Type} (l : List α) (f : α → α) (h : ∀ x ∈ l, f x = x) :
    l.map f = l := by
  induction l with
  | nil => rfl
  | cons x xs ih =>
    rw [List.map_cons, h x (List.mem_cons_self x xs),
      ih (fun y hy => h y (List.mem_cons_of_mem x hy))]

/-- Counterexample to claim C4: registering a Zeus-PIN for which no user row
exists does not fail — server.js emits `registered` with an undefined user and
still creates the presence binding, and part_000 even creates the identity. -/
theorem register_unknown_pin_binds :
    ((register { db := emptyDb, activeUsers := [] } "s1" "ZT-9999-9999" "Ada" "hi").senderEvents
        = [Event.registered none])
    ∧ ((register { db := emptyDb, activeUsers := [] } "s1" "ZT-9999-9999" "Ada" "hi").state.activeUsers
        = [("ZT-9999-9999", "s1")])
    ∧ ((register_v0 { db := emptyDb, activeUsers := [] } "s1" "ZT-9999-9999" "Ada" "ada@x.com").state.db.users
        = [⟨"ZT-9999-9999", "ada@x.com", some "Ada", none, none⟩])
    ∧ ((register_v0 { db := emptyDb, activeUsers := [] } "s1" "ZT-9999-9999" "Ada" "ada@x.com").state.activeUsers
        = [("ZT-9999-9999", "s1")]) := by decide

/-- Claim C4 as amended: `register` never fails and never withholds the
binding — both variants bind the pin to the calling socket unconditionally
and emit no error event; server.js applies the profile UPDATE (a no-op on the
user table when the pin is unknown, since it never creates a row), while
part_000 upserts, creating the identity when absent. -/
theorem register_always_binds (st : ServerState) (sid : SocketId) (p n a e : String) :
    ((register st sid p n a).state.activeUsers = mapSet st.activeUsers p sid)
    ∧ ((register st sid p n a).state.db.users = updateUserProfile st.db.users p n a)
    ∧ ((register st sid p n a).state.db.users.length = st.db.users.length)
    ∧ (∀ m, Event.errorEv m ∉ (register st sid p n a).senderEvents)
    ∧ ((register_v0 st sid p n e).state.activeUsers = mapSet st.activeUsers p sid)
    ∧ (∀ m, Event.errorEv m ∉ (register_v0 st sid p n e).senderEvents)
    ∧ (st.db.users.all (fun u => u.zeus_pin != p) = true →
        (register st sid p n a).state.db.users = st.db.users
        ∧ (register_v0 st sid p n e).state.db.users = st.db.users ++ [⟨p, e, some n, none, none⟩]) := by
  refine ⟨rfl, rfl, by simp [register, updateUserProfile], by simp [register], rfl,
    by simp [register_v0], ?_⟩
  intro hall
  have hnone : ∀ u ∈ st.db.users, (u.zeus_pin == p) = false := by
    intro u hu
    have := List.all_eq_true.1 hall u hu
    simpa using this
  constructor
  · show updateUserProfile st.db.users p n a = st.db.users
    unfold updateUserProfile
    exact map_eq_self_of _ _ (fun u hu => by rw [hnone u hu]; rfl)
  · have hany : st.db.users.any (fun u => u.zeus_pin == p) = false := by
      rw [List.any_eq_false]
      intro u hu
      simp [hnone u hu]
    show (if st.db.users.any (fun u => u.zeus_pin == p) then _ else _) = _
    rw [hany]
    rfl

/-- Witness for C4's amended claim at a concrete unknown pin. -/
theorem register_always_binds_witness :
    ((register { db := emptyDb, activeUsers := [] } "s1" "ZT-9999-9999" "Ada" "hi").state.db.users = [])
    ∧ ((register_v0 { db := emptyDb, activeUsers := [] } "s1" "ZT-9999-9999" "Ada" "ada@x.com").state.db.users
        = [⟨"ZT-9999-9999", "ada@x.com", some "Ada", none, none⟩]) := by
  have h := (register_always_binds { db := emptyDb, activeUsers := [] } "s1" "ZT-9999-9999"
    "Ada" "hi" "ada@x.com").2.2.2.2.2.2 (by decide)
  exact ⟨by simpa [emptyDb] using h.1, by simpa [emptyDb] using h.2⟩

/-- Number of friendship rows whose columns are exactly the ordered pair
`(a, b)`. -/
def friendshipPairCount (fs : List FriendshipRow) (a b : Pin) : Nat :=
  fs.countP (fun r => r.user1_pin == a && r.user2_pin == b)

/-- The server.js friendship insert keeps at most one row per ordered pair. -/
lemma insertFriendship_count_le_one (fs : List FriendshipRow) (f t a b : Pin)
    (h : friendshipPairCount fs a b ≤ 1) :
    friendshipPairCount (insertFriendshipIgnoreDup fs f t) a b ≤ 1 := by
  unfold insertFriendshipIgnoreDup
  by_cases hp : fs.any (fun r => r.user1_pin == f && r.user2_pin == t) = true
  · rwa [if_pos hp]
  · rw [if_neg hp]
    unfold friendshipPairCount at h ⊢
    rw [List.countP_append]
    by_cases hab : f = a ∧ t = b
    · obtain ⟨rfl, rfl⟩ := hab
      have h0 : fs.countP (fun r => r.user1_pin == f && r.user2_pin == t) = 0 := by
        rw [List.countP_eq_zero]
        intro r hr hpr
        exact hp (List.any_eq_true.2 ⟨r, hr, hpr⟩)
      rw [h0]
      simp [List.countP_singleton]
    · have h1 : (([⟨f, t⟩] : List FriendshipRow)).countP
          (fun r => r.user1_pin == a && r.user2_pin == b) = 0 := by
        rw [List.countP_eq_zero]
        intro r hr hpr
        have hfr : r = ⟨f, t⟩ := by simpa using hr
        subst hfr
        simp only [Bool.and_eq_true, beq_iff_eq] at hpr
        exact hab hpr
      omega

/-- Counterexample to claim C2: accepting the invites `(a, b)` and `(b, a)`
yields two friendship rows for the same two identities — `acceptInvite`
inserts the ordered pair as given and nothing deduplicates across the two
orderings. -/
theorem acceptInvite_unordered_duplicate :
    ((acceptInvite (acceptInvite stTwoUsers "ZT-1111-2222" "ZT-3333-4444").state
        "ZT-3333-4444" "ZT-1111-2222").state.db.friendships
      = [⟨"ZT-1111-2222", "ZT-3333-4444"⟩, ⟨"ZT-3333-4444", "ZT-1111-2222"⟩])
    ∧ ((acceptInvite (acceptInvite stTwoUsers "ZT-1111-2222" "ZT-3333-4444").state
        "ZT-3333-4444" "ZT-1111-2222").state.db.friendships.length = 2) := by decide

/-- Claim C2 as amended: `acceptInvite` (server.js) creates a friendship row
for the *ordered* pair only if a row with that exact ordering does not
already exist — so accepting the same invite twice never duplicates the row
and at most one friendship row exists per ordered pair — but accepting the
two orderings of the same unordered pair yields two rows. -/
theorem acceptInvite_ordered_dedup (st : ServerState) (f t : Pin)
    (h : ∀ a b, friendshipPairCount st.db.friendships a b ≤ 1) :
    (∀ a b, friendshipPairCount (acceptInvite st f t).state.db.friendships a b ≤ 1)
    ∧ (st.db.friendships.any (fun r => r.user1_pin == f && r.user2_pin == t) = true →
        (acceptInvite st f t).state.db.friendships = st.db.friendships) := by
  constructor
  · intro a b
    exact insertFriendship_count_le_one st.db.friendships f t a b (h a b)
  · intro hp
    show insertFriendshipIgnoreDup st.db.friendships f t = st.db.friendships
    unfold insertFriendshipIgnoreDup
    rw [if_pos hp]

/-- Witness for C2's amended claim: accepting the same invite twice leaves a
single row for the ordered pair. -/
theorem acceptInvite_ordered_dedup_witness :
    friendshipPairCount
      (acceptInvite (acceptInvite stTwoUsers "ZT-1111-2222" "ZT-3333-4444").state
        "ZT-1111-2222" "ZT-3333-4444").state.db.friendships
      "ZT-1111-2222" "ZT-3333-4444" ≤ 1 :=
  (acceptInvite_ordered_dedup (acceptInvite stTwoUsers "ZT-1111-2222" "ZT-3333-4444").state
    "ZT-1111-2222" "ZT-3333-4444"
    (fun a b => by
      simp only [friendshipPairCount, acceptInvite, insertFriendshipIgnoreDup, stTwoUsers, emptyDb]
      refine le_trans (List.countP_le_length _) ?_
      simp)).1
    "ZT-1111-2222" "ZT-3333-4444"

/-- Number of invite rows for the ordered pair `(f, t)` (any status). -/
def invitePairCount (invs : List InviteRow) (f t : Pin) : Nat :=
  invs.countP (fun i => i.from_pin == f && i.to_pin == t)

/-- Number of pending invite rows for the ordered pair `(f, t)`. -/
def pendingInviteCount (invs : List InviteRow) (f t : Pin) : Nat :=
  invs.countP (fun i => i.from_pin == f && i.to_pin == t && i.status == "pending")

/-- The server.js invite insert keeps at most one row per ordered pair. -/
lemma insertInvite_count_le_one (invs : List InviteRow) (f t a b : Pin)
    (h : invitePairCount invs a b ≤ 1) :
    invitePairCount (insertInviteIgnoreDup invs f t) a b ≤ 1 := by
  unfold insertInviteIgnoreDup
  by_cases hp : invs.any (fun i => i.from_pin == f && i.to_pin == t) = true
  · rwa [if_pos hp]
  · rw [if_neg hp]
    unfold invitePairCount at h ⊢
    rw [List.countP_append]
    by_cases hab : f = a ∧ t = b
    · obtain ⟨rfl, rfl⟩ := hab
      have h0 : invs.countP (fun i => i.from_pin == f && i.to_pin == t) = 0 := by
        rw [List.countP_eq_zero]
        intro i hi hpi
        exact hp (List.any_eq_true.2 ⟨i, hi, hpi⟩)
      rw [h0]
      simp [List.countP_singleton]
    · have h1 : (([⟨f, t, "pending"⟩] : List InviteRow)).countP
          (fun i => i.from_pin == a && i.to_pin == b) = 0 := by
        rw [List.countP_eq_zero]
        intro i hi hpi
        have hfi : i = ⟨f, t, "pending"⟩ := by simpa using hi
        subst hfi
        simp only [Bool.and_eq_true, beq_iff_eq] at hpi
        exact hab hpi
      omega

/-- One server.js `addContact` call keeps at most one invite row per ordered
pair. -/
lemma addContact_pair_le_one (st : ServerState) (x y : Pin)
    (h : ∀ f t, invitePairCount st.db.invites f t ≤ 1) :
    ∀ f t, invitePairCount (addContact st x y).state.db.invites f t ≤ 1 := by
  intro f t
  unfold addContact
  by_cases hu : st.db.users.any (fun u => u.zeus_pin == y) = true
  · rw [if_pos hu]
    exact insertInvite_count_le_one st.db.invites x y f t (h f t)
  · rw [if_neg hu]
    exact h f t

/-- Any sequence of server.js `addContact` calls, applied one after another to
the shared state (the order in which concurrent calls hit the store). -/
def applyAddContacts (st : ServerState) : List (Pin × Pin) → ServerState
  | [] => st
  | pr :: rest => applyAddContacts (addContact st pr.1 pr.2).state rest

/-- Sequences of `addContact` calls preserve the at-most-one-row-per-pair
bound on the invite table. -/
lemma applyAddContacts_pair_le_one (ps : List (Pin × Pin)) (st : ServerState)
    (h : ∀ f t, invitePairCount st.db.invites f t ≤ 1) :
    ∀ f t, invitePairCount (applyAddContacts st ps).db.invites f t ≤ 1 := by
  induction ps generalizing st with
  | nil => exact h
  | cons pr rest ih => exact ih (addContact st pr.1 pr.2).state (addContact_pair_le_one st pr.1 pr.2 h)

/-- Counterexample to claim C3: in the part_000 variant the invite `INSERT`
has no `ON CONFLICT` clause, so two `addContact` calls for the same ordered
pair leave two pending invite rows. -/
theorem addContact_v0_duplicate :
    ((addContact_v0 (addContact_v0 stTwoUsers "ZT-1111-2222" "ZT-3333-4444").state
        "ZT-1111-2222" "ZT-3333-4444").state.db.invites
      = [⟨"ZT-1111-2222", "ZT-3333-4444", "pending"⟩, ⟨"ZT-1111-2222", "ZT-3333-4444", "pending"⟩])
    ∧ (pendingInviteCount
        ((addContact_v0 (addContact_v0 stTwoUsers "ZT-1111-2222" "ZT-3333-4444").state
          "ZT-1111-2222" "ZT-3333-4444").state.db.invites)
        "ZT-1111-2222" "ZT-3333-4444" = 2) := by decide

/-- Claim C3 as amended: in the server.js variant, any number of `addContact`
calls, in whatever order they reach the store, leaves at most one pending
invite row per ordered pair, and a repeated invite for a pair that already
has a row is ignored (the table is unchanged); the part_000 variant appends
unconditionally and does duplicate. -/
theorem addContact_idempotent (st : ServerState) (ps : List (Pin × Pin))
    (h : ∀ f t, invitePairCount st.db.invites f t ≤ 1) :
    (∀ f t, pendingInviteCount (applyAddContacts st ps).db.invites f t ≤ 1)
    ∧ (∀ f t, st.db.invites.any (fun i => i.from_pin == f && i.to_pin == t) = true →
        (addContact st f t).state.db.invites = st.db.invites) := by
  constructor
  · intro f t
    have hpair := applyAddContacts_pair_le_one ps st h f t
    refine le_trans ?_ hpair
    unfold pendingInviteCount invitePairCount
    apply List.countP_mono_left
    intro i _ hpi
    rw [Bool.and_eq_true] at hpi
    exact hpi.1
  · intro f t hp
    unfold addContact
    by_cases hu : st.db.users.any (fun u => u.zeus_pin == t) = true
    · rw [if_pos hu]
      show insertInviteIgnoreDup st.db.invites f t = st.db.invites
      unfold insertInviteIgnoreDup
      rw [if_pos hp]
    · rw [if_neg hu]

/-- Witness for C3's amended claim: two repeated invites through the server.js
handler leave a single pending row. -/
theorem addContact_idempotent_witness :
    pendingInviteCount
      (applyAddContacts stTwoUsers
        [("ZT-1111-2222", "ZT-3333-4444"), ("ZT-1111-2222", "ZT-3333-4444")]).db.invites
      "ZT-1111-2222" "ZT-3333-4444" ≤ 1 :=
  (addContact_idempotent stTwoUsers
    [("ZT-1111-2222", "ZT-3333-4444"), ("ZT-1111-2222", "ZT-3333-4444")]
    (fun f t => by simp [invitePairCount, stTwoUsers, emptyDb])).1
    "ZT-1111-2222" "ZT-3333-4444"

/-- Counterexample to claim C9: one socket can register two pins, so two
presence entries reference the same connection; the disconnect loop deletes
only the first match and `break`s, leaving a code still mapped to the
terminated connection. -/
theorem disconnect_leaves_stale_binding :
    (((register (register stTwoUsers "s1" "ZT-1111-2222" "Ada" "hi").state
        "s1" "ZT-3333-4444" "Bob" "yo").state).activeUsers
      = [("ZT-1111-2222", "s1"), ("ZT-3333-4444", "s1")])
    ∧ ((disconnectHandler ((register (register stTwoUsers "s1" "ZT-1111-2222" "Ada" "hi").state
        "s1" "ZT-3333-4444" "Bob" "yo").state) "s1").activeUsers
      = [("ZT-3333-4444", "s1")])
    ∧ (mapGet (disconnectHandler ((register (register stTwoUsers "s1" "ZT-1111-2222" "Ada" "hi").state
        "s1" "ZT-3333-4444" "Bob" "yo").state) "s1").activeUsers "ZT-3333-4444" = some "s1") := by
  decide

/-- When at most one entry references the socket, removing the first match
removes every reference. -/
lemma removeFirstByValue_clears (m : Presence) (sid : SocketId)
    (h : (m.filter (fun en => en.2 == sid)).length ≤ 1) :
    (removeFirstByValue m sid).filter (fun en => en.2 == sid) = [] := by
  induction m with
  | nil => rfl
  | cons en rest ih =>
    simp only [removeFirstByValue]
    simp only [List.filter_cons] at h
    split
    next he =>
      rw [if_pos he, List.length_cons] at h
      exact List.length_eq_zero.1 (by omega)
    next he =>
      rw [if_neg he] at h
      simp only [List.filter_cons]
      rw [if_neg he]
      exact ih h

/-- Claim C9 as amended: provided at most one presence entry references the
terminating connection (which `register` does not in fact guarantee — see the
counterexample), the disconnect handler removes every reference to that
connection, so no code maps to its handle afterwards. -/
theorem disconnect_unbinds_unique (st : ServerState) (sid : SocketId)
    (h : (st.activeUsers.filter (fun en => en.2 == sid)).length ≤ 1) :
    ((disconnectHandler st sid).activeUsers.filter (fun en => en.2 == sid) = [])
    ∧ (∀ pin, mapGet (disconnectHandler st sid).activeUsers pin ≠ some sid) := by
  have hclear := removeFirstByValue_clears st.activeUsers sid h
  refine ⟨hclear, ?_⟩
  intro pin hget
  unfold mapGet at hget
  rw [Option.map_eq_some'] at hget
  obtain ⟨en, hfind, hsnd⟩ := hget
  have hmem : en ∈ (disconnectHandler st sid).activeUsers := List.mem_of_find?_eq_some hfind
  have hfil : en ∈ (disconnectHandler st sid).activeUsers.filter (fun en => en.2 == sid) :=
    List.mem_filter.2 ⟨hmem, by simp [hsnd]⟩
  rw [show (disconnectHandler st sid).activeUsers = removeFirstByValue st.activeUsers sid from rfl,
    hclear] at hfil
  exact absurd hfil (List.not_mem_nil en)

/-- Witness for C9's amended claim at a concrete single-binding state. -/
theorem disconnect_unbinds_unique_witness :
    mapGet (disconnectHandler { db := emptyDb, activeUsers := [("ZT-1111-2222", "s1")] } "s1").activeUsers
      "ZT-1111-2222" ≠ some "s1" :=
  (disconnect_unbinds_unique { db := emptyDb, activeUsers := [("ZT-1111-2222", "s1")] } "s1"
    (by decide)).2 "ZT-1111-2222"

/-- Attribute the events a handler emits on the calling socket to a concrete
socket id: this is the only place the identity of the calling connection
enters the picture — the handler bodies never read it. -/
def wireSender (self : SocketId) (hr : HandlerResult) : ServerState × List (SocketId × Event) :=
  (hr.state, hr.deliveries ++ hr.senderEvents.map (fun ev => (self, ev)))

/-- Claim C10: for `addContact`, `acceptInvite` and `sendMessage` (both
variants), the resulting state and the full sequence of event payloads are
the same whichever connection issues the action — the handlers consult only
the caller-supplied pins and the shared state, never the issuing connection's
own presence binding, so any connection can act on behalf of any identity. -/
theorem handlers_independent_of_caller (st : ServerState) (f t c : String) (ttl now : Nat)
    (s1 s2 : SocketId) :
    ((wireSender s1 (addContact st f t)).1 = (wireSender s2 (addContact st f t)).1
      ∧ (wireSender s1 (addContact st f t)).2.map Prod.snd
          = (wireSender s2 (addContact st f t)).2.map Prod.snd)
    ∧ ((wireSender s1 (acceptInvite st f t)).1 = (wireSender s2 (acceptInvite st f t)).1
      ∧ (wireSender s1 (acceptInvite st f t)).2.map Prod.snd
          = (wireSender s2 (acceptInvite st f t)).2.map Prod.snd)
    ∧ ((wireSender s1 (sendMessage st f t c ttl now)).1 = (wireSender s2 (sendMessage st f t c ttl now)).1
      ∧ (wireSender s1 (sendMessage st f t c ttl now)).2.map Prod.snd
          = (wireSender s2 (sendMessage st f t c ttl now)).2.map Prod.snd)
    ∧ ((wireSender s1 (addContact_v0 st f t)).1 = (wireSender s2 (addContact_v0 st f t)).1
      ∧ (wireSender s1 (addContact_v0 st f t)).2.map Prod.snd
          = (wireSender s2 (addContact_v0 st f t)).2.map Prod.snd)
    ∧ ((wireSender s1 (acceptInvite_v0 st f t)).1 = (wireSender s2 (acceptInvite_v0 st f t)).1
      ∧ (wireSender s1 (acceptInvite_v0 st f t)).2.map Prod.snd
          = (wireSender s2 (acceptInvite_v0 st f t)).2.map Prod.snd)
    ∧ ((wireSender s1 (sendMessage_v0 st f t c ttl now)).1 = (wireSender s2 (sendMessage_v0 st f t c ttl now)).1
      ∧ (wireSender s1 (sendMessage_v0 st f t c ttl now)).2.map Prod.snd
          = (wireSender s2 (sendMessage_v0 st f t c ttl now)).2.map Prod.snd) := by
  refine ⟨⟨rfl, ?_⟩, ⟨rfl, ?_⟩, ⟨rfl, ?_⟩, ⟨rfl, ?_⟩, ⟨rfl, ?_⟩, ⟨rfl, ?_⟩⟩ <;>
    simp [wireSender, Function.comp]
